import Mathlib

/-
Verification of the Review Harvesting Engine of GoogleReviewAnalyzer
(src/main.py).  The Python functions are shallowly embedded as pure Lean
functions over an explicit model of the rendered DOM: each review card is
a record of the results of exactly the element lookups the code performs
(a field is `none` when the corresponding find_element call would raise).
-/

namespace ReviewAnalyzer

/-- Models Python str.strip with no argument: remove whitespace from both
ends of the string.  Structural recursion so that concrete instances
reduce in the kernel. -/
def dropWhileWS : List Char → List Char
  | [] => []
  | c :: rest => if c.isWhitespace then dropWhileWS rest else c :: rest

/-- Models the Python expression text.strip() used throughout main.py. -/
def pyStrip (s : String) : String :=
  String.mk ((dropWhileWS ((dropWhileWS s.data).reverse)).reverse)

/-- First maximal run of decimal digits in a character list, as used by
the Python regex search for one or more digits in get_total_reviews. -/
def firstDigitRun : List Char → List Char
  | [] => []
  | c :: rest => if c.isDigit then c :: rest.takeWhile Char.isDigit else firstDigitRun rest

/-- Numeric value of a digit run, as Python int applied to the matched
digit substring. -/
def digitsToNat (ds : List Char) : Nat :=
  ds.foldl (fun acc c => acc * 10 + (c.toNat - 48)) 0

/-- Models int(re.search(digits-regexp, text).group()) in
get_total_reviews: the first integer substring of the text, none when the
text has no digit (the Python code then raises AttributeError, caught by
the enclosing handler). -/
def firstIntSubstring (s : String) : Option Nat :=
  match firstDigitRun s.data with
  | [] => none
  | ds => some (digitsToNat ds)

/-- DATE_CLASSES from main.py line 74: the two style-variant classes for
the review-date span, in the priority order the extraction loop uses. -/
def DATE_CLASSES : List String := ["rsqaWe", "xRkPPb"]

/-- REVIEW_TAB_BUTTON_XPATH_2 from main.py lines 48-51 (targets the
second button of the tab container). -/
def REVIEW_TAB_BUTTON_XPATH_2 : String :=
  "/html/body/div[1]/div[3]/div[8]/div[9]/div/div/div[1]/div[2]/div/div[1]/div/div/div[3]/" ++
  "div/div/button[2]/div[2]/div[2]"

/-- REVIEW_TAB_BUTTON_XPATH_3 from main.py lines 53-56 (targets the
third button of the tab container). -/
def REVIEW_TAB_BUTTON_XPATH_3 : String :=
  "/html/body/div[1]/div[3]/div[8]/div[9]/div/div/div[1]/div[2]/div/div[1]/div/div/div[3]/" ++
  "div/div/button[3]/div[2]/div[2]"

/-- One div entry of the services wrapper after its label (the XPath
div-position-greater-than-one lookup in extract_reviews_data).  The field
holds the raw text of the span of class RfDO5c inside the entry, none when
that find_element call would raise. -/
structure ServiceDiv where
  rfDO5c : Option String
deriving DecidableEq

/-- One review card (an element of class jJc9Ad), modelled as the results
of the element lookups extract_reviews_data performs on it.
For each field, none means the corresponding find_element call raises.
myEned: the user-review block; its payload is the text of the span of
class wiI7pd inside it (none when that inner lookup raises).
pbk6be: the services wrapper with its div entries after the label.
rsqaWe and xRkPPb: raw text of the two date-class variants.
fzvQIb: raw text of the direct textual rating element.
kvMYJc: the star container; the payload counts its filled-star children
of class elGi1d (find_elements returns a possibly empty list).
cDe7pd: the owner-response block; its payload is the text of the span of
class wiI7pd inside it. -/
structure Card where
  myEned : Option (Option String)
  pbk6be : Option (List ServiceDiv)
  rsqaWe : Option String
  xRkPPb : Option String
  fzvQIb : Option String
  kvMYJc : Option Nat
  cDe7pd : Option (Option String)
deriving DecidableEq

/-- One harvested review record, the dict built at main.py lines 295-300. -/
structure Review where
  date : String
  rating : String
  text : String
  owner : Option String
deriving DecidableEq

/-- Step 1 of extract_reviews_data (main.py lines 239-245): the stripped
user-review text, none when either the MyEned block or the wiI7pd span
inside it is missing (the bare except then skips the card). -/
def review_text_raw (c : Card) : Option String :=
  match c.myEned with
  | some (some t) => some (pyStrip t)
  | _ => none

/-- Result of find_element on a card for one of the two date classes. -/
def date_lookup (c : Card) (cls : String) : Option String :=
  if cls = "rsqaWe" then c.rsqaWe
  else if cls = "xRkPPb" then c.xRkPPb
  else none

/-- The date loop of extract_reviews_data (main.py lines 265-271): try
each class in order; on a successful find_element, take the stripped text
and break out of the loop; on an exception, continue with the next class. -/
def date_loop (c : Card) : List String → Option String
  | [] => none
  | cls :: rest =>
    match date_lookup c cls with
    | some t => some (pyStrip t)
    | none => date_loop c rest

/-- The review_date value after the date loop over DATE_CLASSES. -/
def review_date_of (c : Card) : Option String :=
  date_loop c DATE_CLASSES

/-- The services collection loop (main.py lines 252-257): for each entry
take the stripped text of its RfDO5c span and keep it when non-empty.  A
raised lookup inside the loop aborts the whole try block, keeping only the
services collected so far. -/
def collect_services : List ServiceDiv → List String
  | [] => []
  | e :: rest =>
    match e.rfDO5c with
    | none => []
    | some t =>
      if pyStrip t = "" then collect_services rest
      else pyStrip t :: collect_services rest

/-- Step 2 of extract_reviews_data (main.py lines 248-259): the collected
service entries; a missing services wrapper yields the empty list. -/
def services_of (c : Card) : List String :=
  match c.pbk6be with
  | none => []
  | some entries => collect_services entries

/-- Step 4 of extract_reviews_data (main.py lines 276-284): the rating.
First the direct textual rating element; on failure the count of filled
stars formatted over 5; when both fail, the sentinel. -/
def rating_of (c : Card) : String :=
  match c.fzvQIb with
  | some t => pyStrip t
  | none =>
    match c.kvMYJc with
    | some stars => toString stars ++ "/5"
    | none => "N/A"

/-- Step 5 of extract_reviews_data (main.py lines 287-292): the optional
owner response; any lookup failure leaves it at none. -/
def owner_of (c : Card) : Option String :=
  match c.cDe7pd with
  | some (some t) => some (pyStrip t)
  | _ => none

/-- The review text after the services suffix append of main.py
lines 261-262. -/
def review_text_with_services (body : String) (services : List String) : String :=
  if services = [] then body
  else body ++ " (Services: " ++ String.intercalate ("; ") services ++ ")"

/-- The body of the per-card loop of extract_reviews_data (main.py
lines 237-304): none means the card is skipped by a continue, some is the
record appended to the result list. -/
def extract_card (c : Card) : Option Review :=
  match review_text_raw c with
  | none => none
  | some body =>
    let review_text := review_text_with_services body (services_of c)
    match review_date_of c with
    | none => none
    | some review_date =>
      if review_date = "" then none
      else some ⟨review_date, rating_of c, review_text, owner_of c⟩

/-- extract_reviews_data (main.py lines 233-306) over the snapshot of
rendered cards.  The per-card exception handler only ever fires through
the modelled lookups, so the function is the card map with skips. -/
def extract_reviews_data (cards : List Card) : List Review :=
  cards.filterMap extract_card

/-- The iteration budget of scroll_to_load_reviews (main.py line 185). -/
def batches (total_reviews : Nat) : Nat :=
  max (total_reviews / 10 + 2) 5

/-- The budget expression lifted to the optional probe result.  Python
evaluates total_reviews floor-div 10, which raises TypeError when
total_reviews is None; that undefinedness is modelled as none. -/
def batches_opt : Option Nat → Option Nat
  | none => none
  | some n => some (batches n)

/-- The scroll loop of scroll_to_load_reviews (main.py lines 188-215).
The page is abstracted by the sequence m of extent measurements: m i is
the scroll height read at the end of iteration i (zero-based), zero when
no scrollable pane exists.  Arguments: remaining budget, last_height, and
the number of iterations already performed.  Returns the total number of
iterations performed and whether the loop stopped through the break. -/
def scroll_go (m : Nat → Nat) : Nat → Nat → Nat → Nat × Bool
  | 0, _, i => (i, false)
  | Nat.succ b, last, i =>
    if m i = last then (i + 1, true)
    else scroll_go m b (m i) (i + 1)

/-- scroll_to_load_reviews (main.py lines 183-217): run the scroll loop
with the computed budget, last_height initialised to zero. -/
def scroll_to_load_reviews (m : Nat → Nat) (total_reviews : Nat) : Nat × Bool :=
  scroll_go m (batches total_reviews) 0 0

/-- The extent measured after iteration k, one-based, with the pre-loop
extent (k = 0) taken as the initial last_height of zero. -/
def meas (m : Nat → Nat) : Nat → Nat
  | 0 => 0
  | Nat.succ k => m k

/-- Scans an XPath for its first button step and returns the one-based
position of that button, used to state which sibling button an XPath
constant addresses. -/
def buttonScan : List Char → Option Nat
  | 'b' :: 'u' :: 't' :: 't' :: 'o' :: 'n' :: '[' :: rest =>
    match rest.takeWhile Char.isDigit with
    | [] => none
    | ds => some (digitsToNat ds)
  | _ :: rest => buttonScan rest
  | [] => none

/-- Position of the button addressed by an XPath string. -/
def buttonIndexOf (xpath : String) : Option Nat :=
  buttonScan xpath.data

/-- click_review_tab (main.py lines 167-181), abstracted over the number
of button elements found in the RWPxGd container: the XPath of the tab
control the function clicks. -/
def click_review_tab (button_count : Nat) : String :=
  if button_count = 3 then REVIEW_TAB_BUTTON_XPATH_2 else REVIEW_TAB_BUTTON_XPATH_3

/-- get_total_reviews (main.py lines 143-164), abstracted over the texts
of the two alternative count-display elements (none when the element
lookup raises).  Any failure on the first path, including a text with no
digits, falls through to the second path; a failure there yields None. -/
def get_total_reviews (text1 text2 : Option String) : Option Nat :=
  match text1.bind firstIntSubstring with
  | some n => some n
  | none => text2.bind firstIntSubstring

/-- Python truthiness of an optional integer, as tested by the if on
total_reviews in main (main.py line 336). -/
def pyTruthy : Option Nat → Bool
  | none => false
  | some n => n != 0

/-- The page state main interacts with: the texts of the two count
elements, the number of tab buttons, the scroll extent measurements and
the snapshot of rendered review cards. -/
structure PageModel where
  count_text1 : Option String
  count_text2 : Option String
  tab_button_count : Nat
  m : Nat → Nat
  cards : List Card

/-- Observable outcome of one pass of main: which steps ran and with what
result.  clicked_tab holds the XPath clicked by the tab resolver, none
when tab activation was never invoked; scroll_result likewise for the
scroll loop. -/
structure MainTrace where
  clicked_tab : Option String
  scroll_result : Option (Nat × Bool)
  expanded : Bool
  extracted : Bool
  saved : Bool
  printed_no_reviews : Bool
  reviews_data : List Review
deriving DecidableEq

/-- The outcome of the else branch of main (main.py lines 346-347): no
step of the harvesting pipeline runs, the no-reviews message is printed
and no record exists. -/
def noReviewsTrace : MainTrace :=
  { clicked_tab := none, scroll_result := none, expanded := false,
    extracted := false, saved := false, printed_no_reviews := true,
    reviews_data := [] }

/-- main (main.py lines 324-350), restricted to the harvesting pipeline:
probe the review count, and only when it is truthy run tab activation,
scrolling, expansion, extraction and the persistence handoff. -/
def main (p : PageModel) : MainTrace :=
  let total_reviews := get_total_reviews p.count_text1 p.count_text2
  if pyTruthy total_reviews then
    { clicked_tab := some (click_review_tab p.tab_button_count),
      scroll_result := some (scroll_to_load_reviews p.m (total_reviews.getD 0)),
      expanded := true,
      extracted := true,
      saved := true,
      printed_no_reviews := false,
      reviews_data := extract_reviews_data p.cards }
  else noReviewsTrace

/-
Helper lemmas shared between claims.
-/

/-- When the probed count is not truthy, main takes the else branch. -/
theorem main_of_not_truthy (p : PageModel)
    (h : pyTruthy (get_total_reviews p.count_text1 p.count_text2) = false) :
    main p = noReviewsTrace := by
  simp [main, h]

/-- A concrete page whose count probe fails on both element shapes. -/
def pageNoCount : PageModel := ⟨none, none, 0, fun _ => 0, []⟩

/-- A concrete page whose count probe succeeds with the value zero. -/
def pageZeroCount : PageModel := ⟨some ("0 reviews"), none, 0, fun _ => 0, []⟩

/-- The data of an appended string is the appended data. -/
theorem data_append (a b : String) : (a ++ b).data = a.data ++ b.data := by
  cases a
  cases b
  rfl

/-- Closed form of the date loop over the two variant classes. -/
theorem review_date_of_eq (c : Card) :
    review_date_of c =
      match c.rsqaWe with
      | some t => some (pyStrip t)
      | none => c.xRkPPb.map pyStrip := by
  cases h1 : c.rsqaWe <;> cases h2 : c.xRkPPb <;>
    simp [review_date_of, date_loop, DATE_CLASSES, date_lookup, h1, h2]

/-- The text of an emitted record is the body with the services suffix. -/
theorem extract_card_text (c : Card) (r : Review) (body : String)
    (hb : review_text_raw c = some body) (h : extract_card c = some r) :
    r.text = review_text_with_services body (services_of c) := by
  cases hd : review_date_of c with
  | none =>
    simp only [extract_card, hb, hd] at h
    cases h
  | some d =>
    simp only [extract_card, hb, hd] at h
    by_cases he : d = ""
    · rw [if_pos he] at h
      exact absurd h (by simp)
    · rw [if_neg he] at h
      obtain rfl := Option.some.inj h
      rfl

/-
Claim theorems.
-/

/-- C8: for every count of sibling tab controls, click_review_tab clicks
the second control exactly when the count is three, and the third control
for any other count. -/
theorem click_review_tab_selects (n : Nat) :
    (n = 3 → buttonIndexOf (click_review_tab n) = some 2) ∧
    (n ≠ 3 → buttonIndexOf (click_review_tab n) = some 3) := by
  constructor
  · intro h
    subst h
    rfl
  · intro h
    unfold click_review_tab
    rw [if_neg h]
    rfl

/-- Witness for C8 at the concrete counts three and four. -/
theorem click_review_tab_selects_witness :
    buttonIndexOf (click_review_tab 3) = some 2 ∧
    buttonIndexOf (click_review_tab 4) = some 3 :=
  ⟨(click_review_tab_selects 3).1 rfl, (click_review_tab_selects 4).2 (by decide)⟩

/-- C9: when the review-count probe obtains no count, main terminates
with zero records and the no-reviews signal, and never invokes tab
activation, scrolling, text expansion, extraction or persistence. -/
theorem main_no_count_terminates (p : PageModel)
    (h : get_total_reviews p.count_text1 p.count_text2 = none) :
    main p = noReviewsTrace :=
  main_of_not_truthy p (by rw [h]; rfl)

/-- Witness for C9 at a concrete page whose probe fails. -/
theorem main_no_count_terminates_witness :
    get_total_reviews pageNoCount.count_text1 pageNoCount.count_text2 = none ∧
    main pageNoCount = noReviewsTrace :=
  ⟨rfl, main_no_count_terminates pageNoCount rfl⟩

/-- C10: a successfully probed count of zero is not distinguished from a
failed probe by the truthiness test, so main takes the same no-reviews
early-termination path and never invokes the pipeline. -/
theorem main_zero_count_terminates (p : PageModel)
    (h : get_total_reviews p.count_text1 p.count_text2 = some 0) :
    main p = noReviewsTrace ∧ pyTruthy (some 0) = pyTruthy none :=
  ⟨main_of_not_truthy p (by rw [h]; rfl), rfl⟩

/-- Witness for C10 at a concrete page whose count element reads zero. -/
theorem main_zero_count_terminates_witness :
    get_total_reviews pageZeroCount.count_text1 pageZeroCount.count_text2 = some 0 ∧
    main pageZeroCount = noReviewsTrace :=
  ⟨rfl, (main_zero_count_terminates pageZeroCount rfl).1⟩

/-- C3 counterexample: for an absent count the budget expression is not
five: it is undefined (a TypeError in Python), and the orchestrator never
invokes the scroll loader on that path. -/
theorem batches_none_counterexample :
    batches_opt none ≠ some 5 ∧ batches_opt none = none ∧
    (main pageNoCount).scroll_result = none := by
  refine ⟨by decide, rfl, ?_⟩
  rfl

/-- C3 amended: the iteration budget equals the maximum of the count
floor-divided by ten plus two and five for every integer count, with
value five at twenty-three and at zero; for an absent count no budget is
computed because the orchestrator skips the loader entirely. -/
theorem batches_formula :
    (∀ n : Nat, batches n = max (n / 10 + 2) 5) ∧
    batches 23 = 5 ∧ batches 0 = 5 ∧ batches_opt none = none ∧
    (∀ p : PageModel, get_total_reviews p.count_text1 p.count_text2 = none →
      (main p).scroll_result = none) := by
  refine ⟨fun n => rfl, by decide, by decide, rfl, fun p h => ?_⟩
  rw [main_of_not_truthy p (by rw [h]; rfl)]
  rfl

/-- Witness for C3 at the count twenty-three and at a concrete page whose
probe fails. -/
theorem batches_formula_witness :
    batches 23 = max (23 / 10 + 2) 5 ∧ (main pageNoCount).scroll_result = none :=
  ⟨batches_formula.1 23, batches_formula.2.2.2.2 pageNoCount rfl⟩

/-- A concrete card whose user-review sub-block exists with empty text. -/
def cardEmptyText : Card :=
  ⟨some (some ("")), none, some ("2 days ago"), none, some ("5.0"), none, none⟩

/-- The record harvested from cardEmptyText. -/
def rEmptyText : Review := ⟨"2 days ago", "5.0", "", none⟩

/-- C1 counterexample: a card whose user-review sub-block is found but
holds empty text is not dropped: it produces a record whose text field is
empty, contradicting that no record with empty text ever appears. -/
theorem empty_text_emitted_counterexample :
    extract_reviews_data [cardEmptyText] = [rEmptyText] ∧
    ∃ r, r ∈ extract_reviews_data [cardEmptyText] ∧ r.text = "" := by
  refine ⟨by decide, rEmptyText, by decide, rfl⟩

/-- A concrete card with no user-review sub-block at all. -/
def cardNoTextBlock : Card :=
  ⟨none, none, some ("2 days ago"), none, some ("5.0"), none, none⟩

/-- A concrete card with every modelled field present and simple. -/
def cardFull : Card :=
  ⟨some (some ("Great")), none, some ("2 days ago"), none, some ("5.0"), none, none⟩

/-- The record harvested from cardFull. -/
def rGreat : Review := ⟨"2 days ago", "5.0", "Great", none⟩

/-- C1 amended: a record is emitted only if the user-review sub-block
lookup succeeded: every card whose MyEned block or inner text span is
missing is excluded from the harvested sequence, and every harvested
record comes from a card whose sub-block was found; the extracted text
itself may however be empty. -/
theorem text_gate_amended :
    (∀ c : Card, (c.myEned = none ∨ c.myEned = some none) → extract_card c = none) ∧
    (∀ (cards : List Card) (r : Review), r ∈ extract_reviews_data cards →
      ∃ c, c ∈ cards ∧ (∃ t, c.myEned = some (some t)) ∧ extract_card c = some r) := by
  constructor
  · rintro c (h | h) <;> simp [extract_card, review_text_raw, h]
  · intro cards r hr
    simp only [extract_reviews_data] at hr
    rcases List.mem_filterMap.mp hr with ⟨c, hc, he⟩
    refine ⟨c, hc, ?_, he⟩
    cases hm : c.myEned with
    | none => rw [show extract_card c = none by simp [extract_card, review_text_raw, hm]] at he; cases he
    | some o =>
      cases o with
      | none => rw [show extract_card c = none by simp [extract_card, review_text_raw, hm]] at he; cases he
      | some t => exact ⟨t, rfl⟩

/-- Witness for C1 at a concrete block-less card and a concrete full card. -/
theorem text_gate_amended_witness :
    extract_card cardNoTextBlock = none ∧
    ∃ c, c ∈ [cardFull] ∧ (∃ t, c.myEned = some (some t)) ∧ extract_card c = some rGreat :=
  ⟨text_gate_amended.1 cardNoTextBlock (Or.inl rfl),
   text_gate_amended.2 [cardFull] rGreat (by decide)⟩

/-- A concrete card where the first date variant is found empty while the
second variant carries non-empty text. -/
def cardDateEmptyFirst : Card :=
  ⟨some (some ("Nice")), none, some (""), some ("2 days ago"), none, none, none⟩

/-- C4 counterexample: the first date variant is found with empty text
and the second variant holds non-empty text, yet the card is dropped: the
loop breaks on the first found element and never tries the second. -/
theorem date_break_counterexample :
    cardDateEmptyFirst.rsqaWe = some ("") ∧
    cardDateEmptyFirst.xRkPPb = some ("2 days ago") ∧
    pyStrip ("2 days ago") ≠ "" ∧
    extract_card cardDateEmptyFirst = none := by
  decide

/-- A concrete card where only the second date variant is found. -/
def cardDateOnlySecond : Card :=
  ⟨some (some ("Nice")), none, none, some ("2 days ago"), none, none, none⟩

/-- C4 amended: the date loop accepts the stripped text of the first
variant whose element is found, regardless of emptiness, so a found but
empty first variant stops the search; the second variant is consulted
exactly when the first element is missing; and a card whose accepted date
is empty or missing is dropped. -/
theorem date_priority_amended :
    (∀ (c : Card) (t : String), c.rsqaWe = some t → review_date_of c = some (pyStrip t)) ∧
    (∀ c : Card, c.rsqaWe = none → review_date_of c = c.xRkPPb.map pyStrip) ∧
    (∀ c : Card, (review_date_of c = none ∨ review_date_of c = some ("")) →
      extract_card c = none) := by
  refine ⟨?_, ?_, ?_⟩
  · intro c t h
    rw [review_date_of_eq, h]
  · intro c h
    rw [review_date_of_eq, h]
  · rintro c (h | h) <;>
      cases hb : review_text_raw c <;>
      simp [extract_card, hb, h]

/-- Witness for C4 at concrete cards for all three parts. -/
theorem date_priority_amended_witness :
    review_date_of cardDateEmptyFirst = some (pyStrip ("")) ∧
    review_date_of cardDateOnlySecond = Option.map pyStrip (some ("2 days ago")) ∧
    extract_card cardDateEmptyFirst = none :=
  ⟨date_priority_amended.1 cardDateEmptyFirst ("") rfl,
   (date_priority_amended.2.1 cardDateOnlySecond rfl).trans (by rfl),
   date_priority_amended.2.2 cardDateEmptyFirst (Or.inr (by decide))⟩

/-- C5: a card from which no date variant yields non-empty text, whether
the variant elements are absent or their text strips to nothing, is
excluded from the harvest even when review text and rating are present. -/
theorem no_date_drops_card (c : Card)
    (h1 : ∀ t, c.rsqaWe = some t → pyStrip t = "")
    (h2 : ∀ t, c.xRkPPb = some t → pyStrip t = "") :
    extract_card c = none := by
  have hdate : review_date_of c = none ∨ review_date_of c = some ("") := by
    rw [review_date_of_eq]
    cases ha : c.rsqaWe with
    | some t => right; simp [h1 t ha]
    | none =>
      cases hb : c.xRkPPb with
      | some t => right; simp [h2 t hb]
      | none => left; simp
  rcases hdate with h | h <;>
    cases hb : review_text_raw c <;>
    simp [extract_card, hb, h]

/-- A concrete card whose only date element strips to the empty string. -/
def cardBlankDate : Card :=
  ⟨some (some ("Nice")), none, some ("  "), none, some ("5.0"), none, none⟩

/-- Witness for C5 at a concrete card with whitespace-only date text. -/
theorem no_date_drops_card_witness :
    pyStrip ("  ") = "" ∧ extract_card cardBlankDate = none := by
  refine ⟨by decide, no_date_drops_card cardBlankDate ?_ ?_⟩
  · intro t ht
    have h : some ("  ") = some t := ht
    rw [← Option.some.inj h]
    decide
  · intro t ht
    cases ht

/-- A concrete card with no direct rating element and four filled stars. -/
def cardStars4 : Card :=
  ⟨some (some ("Nice")), none, some ("2 days ago"), none, none, some 4, none⟩

/-- The record harvested from cardStars4. -/
def rStars4 : Review := ⟨"2 days ago", "4/5", "Nice", none⟩

/-- C6 counterexample: with the direct rating element absent and four
filled stars counted, the rating reads four over the literal five; it is
not a fraction whose denominator equals the counted filled-star total,
and it is neither a direct textual value nor the sentinel. -/
theorem rating_denominator_counterexample :
    cardStars4.fzvQIb = none ∧ cardStars4.kvMYJc = some 4 ∧
    rating_of cardStars4 = "4/5" ∧ rating_of cardStars4 ≠ "N/A" ∧
    ¬ ∃ n : Nat, rating_of cardStars4 = toString n ++ "/" ++ toString 4 := by
  refine ⟨rfl, rfl, rfl, by decide, ?_⟩
  rintro ⟨n, hn⟩
  have hn4 : ("4/5" : String) = toString n ++ "/" ++ toString 4 := hn
  have hlast := congrArg (fun s : String => s.data.getLast?) hn4
  simp only [data_append] at hlast
  rw [List.getLast?_append_of_ne_nil _ (show (toString (4 : Nat)).data ≠ [] by decide)] at hlast
  exact absurd hlast (by decide)

/-- C6 amended: the rating of an emitted record is never absent: it is
the stripped text of the direct rating element when that element exists,
otherwise the filled-star count over the literal five, otherwise the
sentinel. -/
theorem rating_total_amended :
    (∀ (c : Card) (r : Review), extract_card c = some r → r.rating = rating_of c) ∧
    (∀ c : Card,
      (∃ t, c.fzvQIb = some t ∧ rating_of c = pyStrip t) ∨
      (∃ k, c.fzvQIb = none ∧ c.kvMYJc = some k ∧ rating_of c = toString k ++ "/5") ∨
      (c.fzvQIb = none ∧ c.kvMYJc = none ∧ rating_of c = "N/A")) := by
  constructor
  · intro c r h
    cases hb : review_text_raw c with
    | none =>
      simp only [extract_card, hb] at h
      cases h
    | some body =>
      cases hd : review_date_of c with
      | none =>
        simp only [extract_card, hb, hd] at h
        cases h
      | some d =>
        simp only [extract_card, hb, hd] at h
        by_cases he : d = ""
        · rw [if_pos he] at h
          cases h
        · rw [if_neg he] at h
          obtain rfl := Option.some.inj h
          rfl
  · intro c
    cases hf : c.fzvQIb with
    | some t => exact Or.inl ⟨t, rfl, by simp [rating_of, hf]⟩
    | none =>
      cases hk : c.kvMYJc with
      | some k => exact Or.inr (Or.inl ⟨k, rfl, rfl, by simp [rating_of, hf, hk]⟩)
      | none => exact Or.inr (Or.inr ⟨rfl, rfl, by simp [rating_of, hf, hk]⟩)

/-- Witness for C6 at the concrete four-star card. -/
theorem rating_total_amended_witness :
    rStars4.rating = rating_of cardStars4 :=
  rating_total_amended.1 cardStars4 rStars4 (by decide)

/-- A concrete card carrying one service entry. -/
def cardServices : Card :=
  ⟨some (some ("Good")), some [⟨some ("Delivery")⟩], some ("2 days ago"), none, none,
   some 4, none⟩

/-- The record harvested from cardServices. -/
def rServices : Review := ⟨"2 days ago", "4/5", "Good (Services: Delivery)", none⟩

/-- C7 counterexample: the services suffix is appended after a single
space, so the emitted text differs from the plain concatenation of the
review body and the parenthesised suffix. -/
theorem services_suffix_counterexample :
    (extract_card cardServices).map Review.text = some ("Good (Services: Delivery)") ∧
    services_of cardServices = ["Delivery"] ∧
    "Good (Services: Delivery)" ≠
      "Good" ++ "(Services: " ++ String.intercalate ("; ") (["Delivery"]) ++ ")" := by
  refine ⟨by decide, by decide, by decide⟩

/-- C7 amended: with at least one extracted service entry the emitted
text is the review body, one space, then the suffix with entries in DOM
order separated by semicolon-space inside the parentheses; with no
wrapper or no surviving entries the text is the body unchanged. -/
theorem services_suffix_amended (c : Card) (r : Review) (body : String)
    (hb : review_text_raw c = some body) (h : extract_card c = some r) :
    (services_of c ≠ [] →
      r.text = body ++ " (Services: " ++ String.intercalate ("; ") (services_of c) ++ ")") ∧
    (services_of c = [] → r.text = body) := by
  have ht := extract_card_text c r body hb h
  rw [review_text_with_services] at ht
  constructor
  · intro hs
    rw [ht, if_neg hs]
  · intro hs
    rw [ht, if_pos hs]

/-- Witness for C7 at the concrete one-service card and at cardFull. -/
theorem services_suffix_amended_witness :
    rServices.text =
      "Good" ++ " (Services: " ++ String.intercalate ("; ") (services_of cardServices) ++ ")" ∧
    rGreat.text = "Great" :=
  ⟨(services_suffix_amended cardServices rServices ("Good") (by decide) (by decide)).1
      (by decide),
   (services_suffix_amended cardFull rGreat ("Great") (by decide) (by decide)).2 (by decide)⟩

/-- The scroll loop never performs more iterations than its budget adds
to the iterations already performed. -/
theorem scroll_go_le (m : Nat → Nat) :
    ∀ (b last i : Nat), (scroll_go m b last i).1 ≤ i + b := by
  intro b
  induction b with
  | zero =>
    intro last i
    simp [scroll_go]
  | succ b ih =>
    intro last i
    rw [scroll_go]
    by_cases h : m i = last
    · rw [if_pos h]
      simp
    · rw [if_neg h]
      have := ih (m i) (i + 1)
      omega

/-- Stop characterisation of the scroll loop: resumed after iteration i
with last_height equal to the extent measured after iteration i, the loop
breaks with k total iterations exactly when iteration k is the first
iteration past i whose measured extent repeats the previous extent,
within the remaining budget. -/
theorem scroll_go_stop_iff (m : Nat → Nat) :
    ∀ (b i k : Nat),
      scroll_go m b (meas m i) i = (k, true) ↔
        (i < k ∧ k ≤ i + b ∧ meas m k = meas m (k - 1) ∧
          ∀ j, i < j → j < k → meas m j ≠ meas m (j - 1)) := by
  intro b
  induction b with
  | zero =>
    intro i k
    constructor
    · intro h
      simp [scroll_go] at h
    · rintro ⟨h1, h2, -, -⟩
      omega
  | succ b ih =>
    intro i k
    rw [scroll_go]
    by_cases h : m i = meas m i
    · rw [if_pos h]
      constructor
      · intro hk
        have hk' : i + 1 = k := congrArg Prod.fst hk
        subst hk'
        refine ⟨by omega, by omega, h, ?_⟩
        intro j hj1 hj2
        omega
      · rintro ⟨h1, h2, h3, h4⟩
        have hk : k = i + 1 := by
          by_contra hne
          exact h4 (i + 1) (by omega) (by omega) h
        subst hk
        rfl
    · rw [if_neg h]
      rw [show m i = meas m (i + 1) from rfl]
      rw [ih (i + 1) k]
      constructor
      · rintro ⟨h1, h2, h3, h4⟩
        refine ⟨by omega, by omega, h3, ?_⟩
        intro j hj1 hj2
        by_cases hji : j = i + 1
        · subst hji
          exact h
        · exact h4 j (by omega) hj2
      · rintro ⟨h1, h2, h3, h4⟩
        have hk1 : i + 1 < k := by
          rcases Nat.lt_or_ge (i + 1) k with hlt | hge
          · exact hlt
          · exfalso
            have hk : k = i + 1 := by omega
            subst hk
            exact h h3
        exact ⟨hk1, by omega, h3, fun j hj1 hj2 => h4 j (by omega) hj2⟩

/-- C2: the convergent scroll loader performs at most the computed budget
of iterations, and halts early through the break after iteration k
exactly when k is the first iteration whose measured extent equals the
extent measured after the previous iteration, the pre-loop extent taken
as zero. -/
theorem scroll_convergence (m : Nat → Nat) (total_reviews : Nat) :
    (scroll_to_load_reviews m total_reviews).1 ≤ batches total_reviews ∧
    ∀ k, (scroll_to_load_reviews m total_reviews = (k, true) ↔
      (1 ≤ k ∧ k ≤ batches total_reviews ∧ meas m k = meas m (k - 1) ∧
        ∀ j, 1 ≤ j → j < k → meas m j ≠ meas m (j - 1))) := by
  constructor
  · have hle := scroll_go_le m (batches total_reviews) 0 0
    simpa [scroll_to_load_reviews] using hle
  · intro k
    have hiff := scroll_go_stop_iff m (batches total_reviews) 0 k
    rw [show scroll_to_load_reviews m total_reviews =
          scroll_go m (batches total_reviews) (meas m 0) 0 from rfl]
    rw [hiff]
    constructor
    · rintro ⟨h1, h2, h3, h4⟩
      exact ⟨h1, by omega, h3, fun j hj1 hj2 => h4 j hj1 hj2⟩
    · rintro ⟨h1, h2, h3, h4⟩
      exact ⟨h1, by omega, h3, fun j hj1 hj2 => h4 j hj1 hj2⟩

end ReviewAnalyzer
